import Mathlib

/-!
Verification of the MCP client protocol module
(`src/tools/mcp_client.py` of the research-agent MCP integration).

The embedding models JSON values as parsed by Python, the Python
exception classes of the module, and the two protocol operations
`discover_tools` and `call_tool` as pure functions from the mocked
transport outcome to a result, the new tool cache, and the list of
HTTP requests issued.
-/

namespace MCP

/-- JSON values as produced by Python `json.loads`. An `obj` models a
Python dict (keys unique by construction of the parser). -/
inductive Json where
  | null
  | bool (b : Bool)
  | num (n : Int)
  | str (s : String)
  | arr (elems : List Json)
  | obj (fields : List (String × Json))

/-- Python `==` comparison of a parsed-JSON value with a string
constant: only a `str` can compare equal. -/
def isStrVal (k : String) : Json → Bool
  | .str s => s = k
  | _ => false

/-- Association-list lookup, modelling Python dict key access (dicts
parsed from JSON have unique keys, so first match is the value). -/
def jlookup : List (String × Json) → String → Option Json
  | [], _ => none
  | (k, v) :: fs, key => if k = key then some v else jlookup fs key

/-- Field access on a JSON object; `none` when not an object or absent. -/
def jsonField : Json → String → Option Json
  | .obj fs, k => jlookup fs k
  | _, _ => none

/-- True when the pattern occurs at the head of the list. -/
def matchesAt : List Char → List Char → Bool
  | [], _ => true
  | _ :: _, [] => false
  | a :: pa, b :: pb => a == b && matchesAt pa pb

/-- True when the pattern occurs as a contiguous sublist. -/
def hasSubList (pat : List Char) : List Char → Bool
  | [] => pat.isEmpty
  | c :: cs => matchesAt pat (c :: cs) || hasSubList pat cs

/-- Substring test, modelling the Python `in` operator on strings. -/
def strContains (s pat : String) : Bool :=
  hasSubList pat.toList s.toList

/-- A single-quote character as a string (used by the Python `str()`
rendering of parsed JSON values). -/
def sq : String := "\x27"

/-- Wraps a string in single quotes, as Python `repr` does for `str`. -/
def squote (s : String) : String := sq ++ s ++ sq

mutual

/-- Python `str()` rendering of a parsed-JSON value appearing nested
inside a container (i.e. `repr`): dicts as `\x7b...\x7d` with
single-quoted keys, strings single-quoted, None/True/False spelled the
Python way. String escaping is not modelled (the messages proved about
contain no quotes). -/
def pyRepr : Json → String
  | .null => "None"
  | .bool true => "True"
  | .bool false => "False"
  | .num n => toString n
  | .str s => squote s
  | .arr xs => "[" ++ pyReprList xs ++ "]"
  | .obj fs => "\x7b" ++ pyReprFields fs ++ "\x7d"

/-- Comma-separated `repr` of list elements. -/
def pyReprList : List Json → String
  | [] => ""
  | [x] => pyRepr x
  | x :: xs => pyRepr x ++ ", " ++ pyReprList xs

/-- Comma-separated `repr` of dict entries. -/
def pyReprFields : List (String × Json) → String
  | [] => ""
  | [(k, v)] => squote k ++ ": " ++ pyRepr v
  | (k, v) :: fs => squote k ++ ": " ++ pyRepr v ++ ", " ++ pyReprFields fs

end

/-- Python `str()` of a value interpolated into an f-string: a `str`
renders as its raw text, every other value as its `repr`. -/
def pyStr : Json → String
  | .str s => s
  | j => pyRepr j

/-- Configuration for MCP client connection (`MCPClientConfig`,
mcp_client.py lines 17-23). `github_token = none` models Python `None`. -/
structure MCPClientConfig where
  server_url : String
  github_token : Option String := none
  timeout : Nat := 30
  max_retries : Nat := 3
deriving DecidableEq

/-- HTTP headers for MCP requests (`MCPClient._get_headers`, lines
60-70). The `Authorization` header is added exactly when
`self.config.github_token` is truthy, i.e. not `None` and not the
empty string. -/
def get_headers (config : MCPClientConfig) : List (String × String) :=
  [("Content-Type", "application/json"),
   ("User-Agent", "Research-Agent-MCP-Client/1.0")]
  ++ (match config.github_token with
      | some t => if t = "" then [] else [("Authorization", "Bearer " ++ t)]
      | none => [])

/-- The Python exception classes that can arise inside the client:
the module's own hierarchy (`MCPClientError` base, lines 26-38) plus
the library exceptions raised inside the `try` blocks. -/
inductive PyExnClass where
  | mcpClientError
  | mcpAuthenticationError
  | mcpServerError
  | httpStatusError
  | transportFailure
  | jsonDecodeError
  | typeError
  | keyError
  | attributeError
deriving DecidableEq

/-- Instance test against the module's base class: `MCPClientError` and
its two subclasses `MCPAuthenticationError`, `MCPServerError`
(lines 26-38). -/
def isMCPClientError : PyExnClass → Bool
  | .mcpClientError => true
  | .mcpAuthenticationError => true
  | .mcpServerError => true
  | _ => false

/-- A raised Python exception: its class, its `str()` message, and
(for `httpx.HTTPStatusError`) the HTTP status of the response. -/
structure PyExn where
  cls : PyExnClass
  msg : String
  status : Option Nat := none
deriving DecidableEq

/-- The HTTP response body as seen by `response.json()`: either text
that fails to decode, or a parsed JSON value. -/
inductive Body where
  | invalid (raw : String)
  | json (data : Json)

/-- Outcome of the transport for one POST: a network-level failure
(connection refused, DNS failure, timeout — raised by `httpx` as a
transport exception, not an `HTTPStatusError`), or an HTTP response. -/
inductive HTTPOutcome where
  | netFailure (desc : String)
  | response (status : Nat) (body : Body)

/-- One outbound HTTP POST issued by the client. -/
structure Request where
  url : String
  headers : List (String × String)
  body : Json

/-- Textual rendering of an `httpx.HTTPStatusError` (external library;
modelled as a message mentioning the status code). -/
def httpStatusErrorText (status : Nat) : String :=
  "Error response " ++ toString status ++ " for url"

/-- Models `response.raise_for_status()` (lines 85, 133): raises
`httpx.HTTPStatusError` for any status outside 2xx. -/
def raiseForStatus (status : Nat) : Except PyExn Unit :=
  if 200 ≤ status ∧ status < 300 then .ok ()
  else .error ⟨.httpStatusError, httpStatusErrorText status, some status⟩

/-- Models `response.json()` (lines 87, 135): raises
`json.JSONDecodeError` on a body that is not valid JSON. -/
def decodeBody : Body → Except PyExn Json
  | .invalid _ => .error ⟨.jsonDecodeError, "Expecting value: line 1 column 1 (char 0)", none⟩
  | .json data => .ok data

/-- Models Python `data.get(key, default)` (lines 91, 141): returns the
value or the default on a dict, raises `AttributeError` on anything
else. -/
def pyDictGet (data : Json) (key : String) (dflt : Json) : Except PyExn Json :=
  match data with
  | .obj fs => .ok ((jlookup fs key).getD dflt)
  | _ => .error ⟨.attributeError, "object has no attribute get", none⟩

/-- Models `tool["name"]` inside the list comprehension of line 92:
dict subscript (KeyError when absent), TypeError on non-dict items. -/
def toolName : Json → Except PyExn Json
  | .obj fs =>
      match jlookup fs "name" with
      | some v => .ok v
      | none => .error ⟨.keyError, "name", none⟩
  | _ => .error ⟨.typeError, "indices must be integers", none⟩

/-- Left-to-right collection of `tool["name"]` over the elements of
the `tools` list; the first failing element raises. -/
def collectNames : List Json → Except PyExn (List Json)
  | [] => .ok []
  | t :: ts =>
      match toolName t with
      | .error e => .error e
      | .ok v =>
          match collectNames ts with
          | .error e => .error e
          | .ok vs => .ok (v :: vs)

/-- Models the list comprehension `[tool["name"] for tool in tools]`
(line 92) with Python iteration semantics: a list iterates its
elements; a string iterates its characters and a dict its keys (both
then fail subscripting unless empty); other values are not iterable. -/
def extractNames : Json → Except PyExn (List Json)
  | .arr elems => collectNames elems
  | .str s => if s.isEmpty then .ok [] else .error ⟨.typeError, "indices must be integers", none⟩
  | .obj fs => if fs.isEmpty then .ok [] else .error ⟨.typeError, "indices must be integers", none⟩
  | _ => .error ⟨.typeError, "object is not iterable", none⟩

/-- Models lines 88-89 of `discover_tools`: `if "error" in data: raise
MCPServerError(f"Tool discovery failed: \x7bdata[...]\x7d")`, with Python
`in` semantics on each possible top-level JSON type (dict: key test;
list: membership; string: substring; otherwise TypeError), and
`data["error"]` raising TypeError on list/string subscript by key. -/
def discoverCheckError (data : Json) : Except PyExn Unit :=
  match data with
  | .obj fs =>
      match jlookup fs "error" with
      | some errVal => .error ⟨.mcpServerError, "Tool discovery failed: " ++ pyStr errVal, none⟩
      | none => .ok ()
  | .arr xs =>
      if xs.any (isStrVal "error") then
        .error ⟨.typeError, "list indices must be integers", none⟩
      else .ok ()
  | .str s =>
      if strContains s "error" then
        .error ⟨.typeError, "string indices must be integers", none⟩
      else .ok ()
  | _ => .error ⟨.typeError, "argument is not iterable", none⟩

/-- Models lines 137-139 of `call_tool`: on an `error` field, read
`data["error"].get("message", "Unknown MCP error")` (AttributeError
when the error value is not a dict) and raise `MCPServerError`. -/
def callCheckError (tool_name : String) (data : Json) : Except PyExn Unit :=
  match data with
  | .obj fs =>
      match jlookup fs "error" with
      | some errVal =>
          match errVal with
          | .obj efs =>
              let error_msg := match jlookup efs "message" with
                | some v => pyStr v
                | none => "Unknown MCP error"
              .error ⟨.mcpServerError, "Tool " ++ squote tool_name ++ " failed: " ++ error_msg, none⟩
          | _ => .error ⟨.attributeError, "object has no attribute get", none⟩
      | none => .ok ()
  | .arr xs =>
      if xs.any (isStrVal "error") then
        .error ⟨.typeError, "list indices must be integers", none⟩
      else .ok ()
  | .str s =>
      if strContains s "error" then
        .error ⟨.typeError, "string indices must be integers", none⟩
      else .ok ()
  | _ => .error ⟨.typeError, "argument is not iterable", none⟩

/-- The JSON-RPC body of the discovery request (line 83). -/
def discoverRequestBody : Json :=
  .obj [("jsonrpc", .str "2.0"), ("id", .num 1),
        ("method", .str "tools/list"), ("params", .obj [])]

/-- The JSON-RPC body of the invocation request (lines 117-125). -/
def callRequestBody (tool_name : String) (arguments : Json) : Json :=
  .obj [("jsonrpc", .str "2.0"), ("id", .num 1),
        ("method", .str "tools/call"),
        ("params", .obj [("name", .str tool_name), ("arguments", arguments)])]

/-- The body of the `try` block of `discover_tools` (lines 79-95):
send, raise_for_status, decode, check the `error` field, extract
`result.tools` with defaults, collect the names. -/
def tryDiscover (resp : HTTPOutcome) : Except PyExn (List Json) :=
  match resp with
  | .netFailure desc => .error ⟨.transportFailure, desc, none⟩
  | .response status body =>
      match raiseForStatus status with
      | .error e => .error e
      | .ok _ =>
          match decodeBody body with
          | .error e => .error e
          | .ok data =>
              match discoverCheckError data with
              | .error e => .error e
              | .ok _ =>
                  match pyDictGet data "result" (.obj []) with
                  | .error e => .error e
                  | .ok result =>
                      match pyDictGet result "tools" (.arr []) with
                      | .error e => .error e
                      | .ok tools => extractNames tools

/-- The `except` clauses of `discover_tools` (lines 97-102): an
`HTTPStatusError` with status 401 becomes `MCPAuthenticationError`,
any other `HTTPStatusError` a generic `MCPClientError`; every other
exception — including the `MCPServerError` raised at line 89 — is
caught by `except Exception` and re-raised as `MCPClientError`. -/
def discoverHandler (e : PyExn) : PyExn :=
  if e.cls = .httpStatusError then
    if e.status = some 401 then
      ⟨.mcpAuthenticationError, "GitHub authentication required for MCP server", none⟩
    else
      ⟨.mcpClientError, "HTTP error during tool discovery: " ++ e.msg, none⟩
  else
    ⟨.mcpClientError, "Failed to discover tools: " ++ e.msg, none⟩

/-- Result of one `discover_tools` call: the returned value or raised
exception, the session's `_available_tools` cache afterwards, and the
requests issued. -/
structure DiscoverOutcome where
  result : Except PyExn (List Json)
  tools_cache : Option (List Json)
  requests : List Request

/-- `MCPClient.discover_tools` (lines 72-102) as a function of the
session's cache and the mocked transport outcome. The cache assignment
of line 92 happens only after the whole extraction succeeded. -/
def discover_tools (cfg : MCPClientConfig) (cache : Option (List Json))
    (resp : HTTPOutcome) : DiscoverOutcome :=
  let req : Request := ⟨cfg.server_url ++ "/tools/list", get_headers cfg, discoverRequestBody⟩
  match tryDiscover resp with
  | .ok names => ⟨.ok names, some names, [req]⟩
  | .error e => ⟨.error (discoverHandler e), cache, [req]⟩

/-- The body of the `try` block of `call_tool` (lines 115-144). -/
def tryCall (tool_name : String) (resp : HTTPOutcome) : Except PyExn Json :=
  match resp with
  | .netFailure desc => .error ⟨.transportFailure, desc, none⟩
  | .response status body =>
      match raiseForStatus status with
      | .error e => .error e
      | .ok _ =>
          match decodeBody body with
          | .error e => .error e
          | .ok data =>
              match callCheckError tool_name data with
              | .error e => .error e
              | .ok _ => pyDictGet data "result" (.obj [])

/-- The `except` clauses of `call_tool` (lines 146-153): 401 becomes
`MCPAuthenticationError`, 404 a `MCPClientError` with a "not found"
message, other `HTTPStatusError`s a generic `MCPClientError`; every
other exception — including the `MCPServerError` raised at line 139 —
is caught by `except Exception` and re-raised as `MCPClientError`. -/
def callHandler (tool_name : String) (e : PyExn) : PyExn :=
  if e.cls = .httpStatusError then
    if e.status = some 401 then
      ⟨.mcpAuthenticationError, "Authentication failed for tool " ++ squote tool_name, none⟩
    else if e.status = some 404 then
      ⟨.mcpClientError, "Tool " ++ squote tool_name ++ " not found on server", none⟩
    else
      ⟨.mcpClientError, "HTTP error calling tool " ++ squote tool_name ++ ": " ++ e.msg, none⟩
  else
    ⟨.mcpClientError, "Failed to call tool " ++ squote tool_name ++ ": " ++ e.msg, none⟩

/-- Result of one `call_tool` call: the returned value or raised
exception, the cache afterwards (never written by `call_tool`), and
the requests issued. -/
structure CallOutcome where
  result : Except PyExn Json
  tools_cache : Option (List Json)
  requests : List Request

/-- `MCPClient.call_tool` (lines 104-153) as a function of the
session's cache, the tool name, the arguments, and the mocked
transport outcome. No validation of the tool name happens before the
POST is issued. -/
def call_tool (cfg : MCPClientConfig) (cache : Option (List Json))
    (tool_name : String) (arguments : Json) (resp : HTTPOutcome) : CallOutcome :=
  let req : Request := ⟨cfg.server_url ++ "/tools/call", get_headers cfg,
                        callRequestBody tool_name arguments⟩
  match tryCall tool_name resp with
  | .ok r => ⟨.ok r, cache, [req]⟩
  | .error e => ⟨.error (callHandler tool_name e), cache, [req]⟩

/-- The exception class of a result, `none` on success. -/
def errClass {α : Type} : Except PyExn α → Option PyExnClass
  | .error e => some e.cls
  | .ok _ => none

/-- True when the result is a raised exception whose message contains
the given substring. -/
def errMsgContains {α : Type} (r : Except PyExn α) (pat : String) : Bool :=
  match r with
  | .error e => strContains e.msg pat
  | .ok _ => false

/-- The configuration used by the repository's own tests
(tests/test_mcp_integration.py lines 25-29). -/
def cfgA : MCPClientConfig :=
  { server_url := "http://localhost:8787/mcp", github_token := some "test_token",
    timeout := 10, max_retries := 3 }


/-- Every exception leaving the `except` clauses of `discover_tools`
is an instance of the module base class. -/
theorem discoverHandler_cls (e : PyExn) :
    isMCPClientError (discoverHandler e).cls = true := by
  unfold discoverHandler
  split
  · split
    · rfl
    · rfl
  · rfl

/-- Every exception leaving the `except` clauses of `call_tool` is an
instance of the module base class. -/
theorem callHandler_cls (t : String) (e : PyExn) :
    isMCPClientError (callHandler t e).cls = true := by
  unfold callHandler
  split
  · split
    · rfl
    · split
      · rfl
      · rfl
  · rfl

/-- The list comprehension maps well-formed tool entries to their
names, in order, duplicates preserved. -/
theorem collectNames_named (names : List String) :
    collectNames (names.map fun n => Json.obj [("name", Json.str n)])
      = Except.ok (names.map Json.str) := by
  induction names with
  | nil => rfl
  | cons n ns ih => simp [collectNames, toolName, jlookup, ih]

/-- A discovery response body reporting the given tool names. -/
def discoveryBody (names : List String) : Json :=
  .obj [("result", .obj [("tools", .arr (names.map fun n => .obj [("name", .str n)]))])]

/-- The discovery `try` block on a well-formed 200 response extracts
exactly the reported names. -/
theorem tryDiscover_discoveryBody (names : List String) :
    tryDiscover (.response 200 (.json (discoveryBody names)))
      = Except.ok (names.map Json.str) := by
  have h : tryDiscover (.response 200 (.json (discoveryBody names)))
      = collectNames (names.map fun n => Json.obj [("name", Json.str n)]) := rfl
  rw [h, collectNames_named]


/-- The server-error response body of testable property 5 of the spec:
HTTP 200 with body reporting a server-side error message. -/
def serverErrorBody : Json := .obj [("error", .obj [("message", .str "bad input")])]

/-- C1: on an HTTP 200 response whose body carries an `error` field,
both operations raise a server error carrying the server-supplied
message. What the code actually does at this input: the
`MCPServerError` raised inside the `try` block (lines 89 and 139) is
immediately caught by the same function's blanket `except Exception`
(lines 101 and 152) and replaced by a plain `MCPClientError`; the
caller therefore observes the base class, not `MCPServerError`, though
the message still contains the server-supplied text "bad input". -/
theorem server_error_rewrapped :
    errClass (tryDiscover (.response 200 (.json serverErrorBody)))
        = some PyExnClass.mcpServerError
    ∧ errClass (discover_tools cfgA none (.response 200 (.json serverErrorBody))).result
        = some PyExnClass.mcpClientError
    ∧ errMsgContains (discover_tools cfgA none (.response 200 (.json serverErrorBody))).result
        "bad input" = true
    ∧ errClass (tryCall "createTask" (.response 200 (.json serverErrorBody)))
        = some PyExnClass.mcpServerError
    ∧ errClass (call_tool cfgA none "createTask" (.obj [])
        (.response 200 (.json serverErrorBody))).result = some PyExnClass.mcpClientError
    ∧ errMsgContains (call_tool cfgA none "createTask" (.obj [])
        (.response 200 (.json serverErrorBody))).result "bad input" = true :=
  ⟨rfl, rfl, rfl, rfl, rfl, rfl⟩

/-- C2 counterexample: invoking with an empty-string tool name is not
rejected before the network call — the POST is issued (one request in
the log) and, on a well-formed 200 response, the call even succeeds. -/
theorem empty_name_not_rejected :
    (call_tool cfgA none "" (.obj [])
        (.response 200 (.json (.obj [("result", .obj [("ok", .bool true)])])))).result
      = .ok (.obj [("ok", .bool true)])
    ∧ (call_tool cfgA none "" (.obj [])
        (.response 200 (.json (.obj [("result", .obj [("ok", .bool true)])])))).requests.length
      = 1 :=
  ⟨rfl, rfl⟩

/-- C2 amended: the client performs no local validation of the tool
name; with an empty-string name it issues exactly one HTTP POST whose
`params.name` is the empty string, and the outcome is determined by
the server response exactly as for any other name (in particular a
well-formed success response yields the `result` mapping). -/
theorem empty_name_request_issued (cfg : MCPClientConfig) (cache : Option (List Json))
    (args : Json) (resp : HTTPOutcome) :
    (call_tool cfg cache "" args resp).requests
      = [⟨cfg.server_url ++ "/tools/call", get_headers cfg, callRequestBody "" args⟩]
    ∧ jsonField (callRequestBody "" args) "params"
      = some (.obj [("name", .str ""), ("arguments", args)])
    ∧ (∀ fs r, resp = .response 200 (.json (.obj fs)) → jlookup fs "error" = none →
        jlookup fs "result" = some r → (call_tool cfg cache "" args resp).result = .ok r) := by
  refine ⟨?_, rfl, ?_⟩
  · cases h : tryCall "" resp <;> simp [call_tool, h]
  · intro fs r hresp herr hres
    subst hresp
    have ht : tryCall "" (.response 200 (.json (.obj fs))) = .ok r := by
      simp [tryCall, raiseForStatus, decodeBody, callCheckError, herr, pyDictGet, hres]
    simp [call_tool, ht]

/-- C2 amended, witness: the empty-name invocation against a concrete
success response returns the result mapping. -/
theorem empty_name_request_issued_witness :
    (call_tool cfgA none "" (.obj [])
        (.response 200 (.json (.obj [("result", .str "done")])))).result = .ok (.str "done") := by
  exact (empty_name_request_issued cfgA none (.obj [])
      (.response 200 (.json (.obj [("result", .str "done")])))).2.2
    [("result", .str "done")] (.str "done") rfl rfl rfl

/-- C3 counterexample: at HTTP 404 on invocation the raised error has
the same class — the base `MCPClientError` — as the error raised for
any other non-2xx status such as 500; there is no distinct
ToolNotFoundError kind in the code. -/
theorem notfound_same_class :
    errClass (call_tool cfgA none "missing" (.obj [])
        (.response 404 (.json (.obj [])))).result = some PyExnClass.mcpClientError
    ∧ errClass (call_tool cfgA none "missing" (.obj [])
        (.response 404 (.json (.obj [])))).result
      = errClass (call_tool cfgA none "missing" (.obj [])
        (.response 500 (.json (.obj [])))).result :=
  ⟨rfl, rfl⟩

/-- C3 amended: HTTP 404 on invocation is special-cased only in the
error message — `call_tool` raises the base `MCPClientError` saying
the tool was not found, while 404 on discovery raises the base
`MCPClientError` with the generic HTTP-error message; no separate
exception class distinguishes the two. -/
theorem notfound_message_only (cfg : MCPClientConfig) (cache : Option (List Json))
    (name : String) (args : Json) (body : Body) :
    (call_tool cfg cache name args (.response 404 body)).result
      = .error ⟨.mcpClientError, "Tool " ++ squote name ++ " not found on server", none⟩
    ∧ (discover_tools cfg cache (.response 404 body)).result
      = .error ⟨.mcpClientError,
          "HTTP error during tool discovery: " ++ httpStatusErrorText 404, none⟩ :=
  ⟨rfl, rfl⟩

/-- C4: an HTTP 401 on either discovery or invocation raises
`MCPAuthenticationError`, a class distinct from the base
`MCPClientError` used for generic transport-level failures. -/
theorem auth_error_401 (cfg : MCPClientConfig) (cache : Option (List Json))
    (name : String) (args : Json) (body : Body) :
    errClass (discover_tools cfg cache (.response 401 body)).result
      = some PyExnClass.mcpAuthenticationError
    ∧ errClass (call_tool cfg cache name args (.response 401 body)).result
      = some PyExnClass.mcpAuthenticationError
    ∧ PyExnClass.mcpAuthenticationError ≠ PyExnClass.mcpClientError :=
  ⟨rfl, rfl, by decide⟩

/-- C5: a successful discovery whose body reports the tool names
`names` returns exactly that sequence (server order, duplicates
preserved) and replaces whatever was cached before with the same
sequence. -/
theorem discover_roundtrip (cfg : MCPClientConfig) (cache : Option (List Json))
    (names : List String) :
    (discover_tools cfg cache (.response 200 (.json (discoveryBody names)))).result
      = .ok (names.map Json.str)
    ∧ (discover_tools cfg cache (.response 200 (.json (discoveryBody names)))).tools_cache
      = some (names.map Json.str) := by
  constructor <;> simp [discover_tools, tryDiscover_discoveryBody]


/-- C6: when an operation fails, the cached tool list is exactly what
it was before the call; `call_tool` never writes the cache at all, so
the cache changes only on a fully successful discovery. -/
theorem cache_unchanged_on_failure (cfg : MCPClientConfig) (cache : Option (List Json))
    (resp : HTTPOutcome) (name : String) (args : Json) :
    (∀ e, (discover_tools cfg cache resp).result = .error e →
        (discover_tools cfg cache resp).tools_cache = cache)
    ∧ (call_tool cfg cache name args resp).tools_cache = cache := by
  constructor
  · intro e he
    cases h : tryDiscover resp with
    | ok names => simp [discover_tools, h] at he
    | error e0 => simp [discover_tools, h]
  · cases h : tryCall name resp <;> simp [call_tool, h]

/-- C6 witness: a 500 response leaves a previously cached list
untouched on both operations. -/
theorem cache_unchanged_on_failure_witness :
    (discover_tools cfgA (some [Json.str "old"])
        (.response 500 (.json (.obj [])))).tools_cache = some [Json.str "old"]
    ∧ (call_tool cfgA (some [Json.str "old"]) "t" (.obj [])
        (.response 500 (.json (.obj [])))).tools_cache = some [Json.str "old"] :=
  ⟨(cache_unchanged_on_failure cfgA (some [Json.str "old"])
      (.response 500 (.json (.obj []))) "t" (.obj [])).1
      ⟨.mcpClientError, "HTTP error during tool discovery: " ++ httpStatusErrorText 500, none⟩
      rfl,
   (cache_unchanged_on_failure cfgA (some [Json.str "old"])
      (.response 500 (.json (.obj []))) "t" (.obj [])).2⟩

/-- C7: every invocation issues exactly one POST to
`{base_url}/tools/call` whose body carries `jsonrpc` "2.0", the fixed
`id` 1, `method` "tools/call", `params.name` equal to the tool name and
`params.arguments` equal to the given mapping unmodified; on a
successful response the `result` mapping is returned unmodified. -/
theorem call_request_shape (cfg : MCPClientConfig) (cache : Option (List Json))
    (name : String) (args : Json) (resp : HTTPOutcome) :
    (call_tool cfg cache name args resp).requests
      = [⟨cfg.server_url ++ "/tools/call", get_headers cfg, callRequestBody name args⟩]
    ∧ jsonField (callRequestBody name args) "jsonrpc" = some (.str "2.0")
    ∧ jsonField (callRequestBody name args) "id" = some (.num 1)
    ∧ jsonField (callRequestBody name args) "method" = some (.str "tools/call")
    ∧ (∃ p, jsonField (callRequestBody name args) "params" = some p
        ∧ jsonField p "name" = some (.str name)
        ∧ jsonField p "arguments" = some args)
    ∧ (∀ status fs r, resp = .response status (.json (.obj fs))
        → 200 ≤ status → status < 300
        → jlookup fs "error" = none → jlookup fs "result" = some r
        → (call_tool cfg cache name args resp).result = .ok r) := by
  refine ⟨?_, rfl, rfl, rfl, ⟨_, rfl, rfl, rfl⟩, ?_⟩
  · cases h : tryCall name resp <;> simp [call_tool, h]
  · intro status fs r hresp h1 h2 herr hres
    subst hresp
    have ht : tryCall name (.response status (.json (.obj fs))) = .ok r := by
      simp [tryCall, raiseForStatus, h1, h2, decodeBody, callCheckError, herr, pyDictGet, hres]
    simp [call_tool, ht]

/-- Argument mapping of testable property 6 of the spec. -/
def createTaskArgs : Json :=
  .obj [("title", .str "T"), ("description", .str "D"),
        ("projectName", .str "P"), ("priority", .str "high")]

/-- A well-formed invocation success body. -/
def callSuccessFields : List (String × Json) :=
  [("result", .obj [("content", .arr [.obj [("type", .str "text"),
      ("text", .str "Task created successfully")]])])]

/-- C7 witness: invoking "createTask" with the concrete argument
mapping against a concrete success response returns the `result`
mapping unmodified. -/
theorem call_request_shape_witness :
    (call_tool cfgA none "createTask" createTaskArgs
        (.response 200 (.json (.obj callSuccessFields)))).result
      = .ok (.obj [("content", .arr [.obj [("type", .str "text"),
          ("text", .str "Task created successfully")]])]) :=
  (call_request_shape cfgA none "createTask" createTaskArgs
      (.response 200 (.json (.obj callSuccessFields)))).2.2.2.2.2
    200 callSuccessFields _ rfl (by decide) (by decide) rfl rfl

/-- C8 counterexample: a 200 response whose body is the empty JSON
object — valid JSON but lacking the `result` envelope — is not
rejected: discovery succeeds with the empty list (and caches it) and
invocation succeeds with the empty mapping, instead of raising a
ProtocolError-like failure. -/
theorem missing_envelope_yields_empty :
    (discover_tools cfgA none (.response 200 (.json (.obj [])))).result = .ok []
    ∧ (discover_tools cfgA none (.response 200 (.json (.obj [])))).tools_cache = some []
    ∧ (call_tool cfgA none "t" (.obj []) (.response 200 (.json (.obj [])))).result
      = .ok (.obj []) :=
  ⟨rfl, rfl, rfl⟩

/-- C8 amended: a body that is not valid JSON raises the base
`MCPClientError` (there is no distinct ProtocolError kind), but a 200
body lacking the `result` field (or, inside it, the `tools` field)
falls back to defaults and yields an empty-list success on discovery —
caching the empty list — and an empty-mapping success on invocation. -/
theorem protocol_error_amended (cfg : MCPClientConfig) (cache : Option (List Json))
    (name : String) (args : Json) (raw : String) :
    errClass (discover_tools cfg cache (.response 200 (.invalid raw))).result
      = some PyExnClass.mcpClientError
    ∧ errClass (call_tool cfg cache name args (.response 200 (.invalid raw))).result
      = some PyExnClass.mcpClientError
    ∧ (discover_tools cfg cache (.response 200 (.json (.obj [])))).result = .ok []
    ∧ (discover_tools cfg cache (.response 200 (.json (.obj [])))).tools_cache = some []
    ∧ (discover_tools cfg cache
        (.response 200 (.json (.obj [("result", .obj [])])))).result = .ok []
    ∧ (call_tool cfg cache name args (.response 200 (.json (.obj [])))).result
      = .ok (.obj []) :=
  ⟨rfl, rfl, rfl, rfl, rfl, rfl⟩


/-- C9: every request issued by either operation carries the baseline
headers computed at session open — the JSON content type, the
user agent, and an `Authorization: Bearer <token>` header exactly when
a (truthy, i.e. non-empty) bearer credential is configured. -/
theorem headers_invariant (cfg : MCPClientConfig) (cache : Option (List Json))
    (name : String) (args : Json) (resp : HTTPOutcome) :
    (∀ req ∈ (discover_tools cfg cache resp).requests, req.headers = get_headers cfg)
    ∧ (∀ req ∈ (call_tool cfg cache name args resp).requests, req.headers = get_headers cfg)
    ∧ ("Content-Type", "application/json") ∈ get_headers cfg
    ∧ ("User-Agent", "Research-Agent-MCP-Client/1.0") ∈ get_headers cfg
    ∧ (∀ v, ("Authorization", v) ∈ get_headers cfg →
        ∃ t, cfg.github_token = some t ∧ t ≠ "" ∧ v = "Bearer " ++ t)
    ∧ (∀ t, cfg.github_token = some t → t ≠ "" →
        ("Authorization", "Bearer " ++ t) ∈ get_headers cfg) := by
  refine ⟨?_, ?_, ?_, ?_, ?_, ?_⟩
  · intro req hreq
    cases h : tryDiscover resp <;> simp [discover_tools, h] at hreq <;> subst hreq <;> rfl
  · intro req hreq
    cases h : tryCall name resp <;> simp [call_tool, h] at hreq <;> subst hreq <;> rfl
  · simp [get_headers]
  · simp [get_headers]
  · intro v hv
    simp only [get_headers] at hv
    cases htok : cfg.github_token with
    | none =>
        rw [htok] at hv
        simp at hv
    | some t =>
        rw [htok] at hv
        by_cases ht : t = ""
        · simp [ht] at hv
        · simp [ht] at hv
          exact ⟨t, rfl, ht, hv⟩
  · intro t ht hne
    simp [get_headers, ht, hne]

/-- C9 witness: with the tests' configured token, the baseline headers
hold and the bearer header is present on the issued request. -/
theorem headers_invariant_witness :
    ("Content-Type", "application/json") ∈ get_headers cfgA
    ∧ ("Authorization", "Bearer " ++ "test_token") ∈ get_headers cfgA :=
  ⟨(headers_invariant cfgA none "t" (.obj []) (.netFailure "connection refused")).2.2.1,
   (headers_invariant cfgA none "t" (.obj []) (.netFailure "connection refused")).2.2.2.2.2
      "test_token" rfl (by decide)⟩

/-- C10: every error raised by either operation — authentication,
server-reported, transport, or parse failure — is an instance of the
single base class `MCPClientError`, so catching the base class catches
every failure kind of the client. -/
theorem errors_are_mcp (cfg : MCPClientConfig) (cache : Option (List Json))
    (name : String) (args : Json) (resp : HTTPOutcome) :
    (∀ e, (discover_tools cfg cache resp).result = .error e →
        isMCPClientError e.cls = true)
    ∧ (∀ e, (call_tool cfg cache name args resp).result = .error e →
        isMCPClientError e.cls = true) := by
  constructor
  · intro e he
    cases h : tryDiscover resp with
    | ok names => simp [discover_tools, h] at he
    | error e0 =>
        simp [discover_tools, h] at he
        subst he
        exact discoverHandler_cls e0
  · intro e he
    cases h : tryCall name resp with
    | ok r => simp [call_tool, h] at he
    | error e0 =>
        simp [call_tool, h] at he
        subst he
        exact callHandler_cls name e0

/-- C10 witness: the error raised for a 200 response with an invalid
JSON body is an instance of the base class. -/
theorem errors_are_mcp_witness :
    isMCPClientError (PyExn.mk PyExnClass.mcpClientError
        ("Failed to discover tools: " ++ "Expecting value: line 1 column 1 (char 0)")
        none).cls = true :=
  (errors_are_mcp cfgA none "t" (.obj []) (.response 200 (.invalid "not json"))).1
    ⟨.mcpClientError,
     "Failed to discover tools: " ++ "Expecting value: line 1 column 1 (char 0)", none⟩ rfl

end MCP
